import Mathlib

/-!
# USB hub link power management (drivers/misc/modem_if/modem_link_pm_usb.c)

A shallow embedding of the hub power state machine, the link activation
handshake, the ioctl command surface and the suspend notifier of the modem
link power-management driver, followed by theorems about them.

Conventions of the embedding:

* every C function becomes a pure function from the data it reads (and the
  values the environment hands back to it) to a `Ret`: the returned value, the
  `link_pm_data` it leaves behind, and the list of calls it made to its
  collaborators, in program order;
* `pr_*`/`mif_*` logging is not recorded;
* fields of `struct link_pm_data` that are written once in `link_pm_init` and
  only read afterwards as identifiers of lines or devices (the gpio numbers,
  `autosuspend_delay_ms`, `miscdev`, `pm_notifier`, ...) are left out;
* pointers are kept only as "is it NULL": `root_hub` and `usbdev` are `Bool`s,
  `port_enable` is an `Option`.
-/

namespace ModemLinkPm

/-! ## Data model -/

/-- Hub states. The enumeration is declared in `modem_link_pm_usb.h`, which is
not part of the sources at hand; its four members are the ones the C file
names, in the order the specification gives (`OFF`, `RESUMING`, `PREACTIVE`,
`ACTIVE`). -/
inductive HubState where
  | HUB_STATE_OFF
  | HUB_STATE_RESUMMING
  | HUB_STATE_PREACTIVE
  | HUB_STATE_ACTIVE
  deriving DecidableEq, Repr

open HubState

/-- Calls the driver makes to its collaborators. Each constructor is one call
site family of the C file; the device or object the call is made on is part of
the constructor name. -/
inductive Effect where
  /-- `wake_lock(&pm_data->hub_lock)` -/
  | wake_lock
  /-- `wake_unlock(&pm_data->hub_lock)` -/
  | wake_unlock
  /-- `schedule_delayed_work(&pm_data->link_pm_hub, msecs_to_jiffies(ms))` -/
  | schedule_delayed_work (ms : Nat)
  /-- `pm_runtime_get_sync(pm_data->root_hub)` -/
  | pm_runtime_get_sync_root_hub
  /-- `pm_runtime_put_sync(pm_data->root_hub)` -/
  | pm_runtime_put_sync_root_hub
  /-- `pm_data->port_enable(port, value)` -/
  | port_enable (port : Int) (value : Int)
  /-- `complete(&pm_data->hub_active)` -/
  | complete
  /-- `INIT_COMPLETION(pm_data->hub_active)` -/
  | INIT_COMPLETION
  /-- `wait_for_completion_timeout(&pm_data->hub_active, msecs_to_jiffies(ms))` -/
  | wait_for_completion_timeout (ms : Nat)
  /-- `SET_SLAVE_WAKEUP(usb_ld->pdata, v)` -/
  | SET_SLAVE_WAKEUP (v : Int)
  /-- `queue_delayed_work(usb_ld->ld.tx_wq, &usb_ld->ld.tx_delayed_work, delay)` -/
  | queue_delayed_work_tx (delay : Nat)
  /-- `usb_make_resume(usb_ld)` -/
  | usb_make_resume
  /-- `gpio_set_value(pm_data->gpio_link_active, v)` -/
  | gpio_set_value_link_active (v : Int)
  /-- `gpio_get_value(pm_data->gpio_link_hostwake)` -/
  | gpio_get_value_link_hostwake
  /-- `pm_runtime_resume(pm_data->root_hub)` -/
  | pm_runtime_resume_root_hub
  /-- `pm_runtime_forbid(pm_data->root_hub->parent)` -/
  | pm_runtime_forbid_root_hub_parent
  /-- `pm_runtime_get_sync(&udev->dev)` with `udev = usb_ld->usbdev->parent` -/
  | pm_runtime_get_sync_udev
  /-- `usb_force_disconnect(udev)` -/
  | usb_force_disconnect
  /-- `pm_runtime_put_autosuspend(&udev->dev)` -/
  | pm_runtime_put_autosuspend_udev
  /-- `pm_runtime_forbid(&usb_ld->usbdev->dev)` -/
  | pm_runtime_forbid_usbdev
  /-- `pm_runtime_allow(&usb_ld->usbdev->dev)` -/
  | pm_runtime_allow_usbdev
  deriving DecidableEq, Repr

/-- The part of `struct link_pm_data` that the C file reads and writes after
initialisation. `port_enable` is the platform callback `int (*)(int, int)`
(`none` is the NULL pointer); a negative result is an error. It is kept as a
function of its two arguments: no function of the file calls it twice with the
same arguments, and between calls of the driver its answers may change (see
`Op.port_behaviour`). `root_hub` is
`true` when the pointer is not NULL. `hub_on_retry_cnt` is a C `int`: the only
arithmetic on it is the post-increment in `link_pm_hub_work`, whose result is
kept only when the old value is at most 50 (otherwise the field is overwritten
with 0), so no wrap-around is modelled. -/
structure link_pm_data where
  has_usbhub : Bool
  hub_status : HubState
  hub_on_retry_cnt : Int
  hub_init_lock : Bool
  hub_handshake_done : Bool
  dpm_suspending : Bool
  block_autosuspend : Bool
  root_hub : Bool
  port_enable : Option (Int → Int → Int)

/-- The part of `struct usb_link_device` the C file looks at. `usbdev` is
`true` when the pointer is not NULL; `udev_attached` stands for
`usb_ld->usbdev->parent->state != USB_STATE_NOTATTACHED`. -/
structure usb_link_device where
  if_usb_connected : Bool
  usbdev : Bool
  udev_attached : Bool
  link_pm_data : link_pm_data

/-- The precondition of the `IOCTL_LINK_PORT_OFF` branch of `link_pm_ioctl`:
that branch reads `usb_ld->usbdev->parent` whenever `if_usb_connected` is set,
without testing `usbdev`, so it runs to its end only on a link device whose
`usbdev` is set while the transport is attached. With the transport attached
and `usbdev` NULL the C function dereferences a NULL pointer. -/
def usbdev_valid (usb_ld : usb_link_device) : Prop :=
  usb_ld.if_usb_connected = true → usb_ld.usbdev = true

/-- What a call leaves behind: its return value, the power-management data
after it, and the calls it made, in order. -/
structure Ret (α : Type) where
  val : α
  pm : link_pm_data
  effects : List Effect

/-- Macro `has_hub(usb_ld)` of the absent header: the hub-presence flag of the
link's power-management data. -/
def has_hub (usb_ld : usb_link_device) : Bool :=
  usb_ld.link_pm_data.has_usbhub

def ENODEV : Int := 19
def EFAULT : Int := 14
def ENOMEM : Int := 12

def NOTIFY_DONE : Int := 0
def NOTIFY_OK : Int := 1

def PM_SUSPEND_PREPARE : Nat := 3
def PM_POST_SUSPEND : Nat := 4

/-- The `pm_runtime_put_sync(pm_data->root_hub)` guarded by `if (pm_data->root_hub)`. -/
def put_root_hub (pm_data : link_pm_data) : List Effect :=
  if pm_data.root_hub then [.pm_runtime_put_sync_root_hub] else []

/-- The `pm_runtime_get_sync(pm_data->root_hub)` guarded by `if (pm_data->root_hub)`. -/
def get_root_hub (pm_data : link_pm_data) : List Effect :=
  if pm_data.root_hub then [.pm_runtime_get_sync_root_hub] else []

/-! ## The functions of the driver -/

/-- The function `link_pm_is_connected`. -/
def link_pm_is_connected (usb_ld : usb_link_device) : Ret Bool :=
  let pm_data := usb_ld.link_pm_data
  let connected : Ret Bool :=
    if ¬ usb_ld.if_usb_connected then ⟨false, pm_data, []⟩ else ⟨true, pm_data, []⟩
  if has_hub usb_ld then
    if pm_data.hub_init_lock then
      ⟨false, pm_data, []⟩
    else if pm_data.hub_status ≠ HUB_STATE_ACTIVE then
      ⟨false, pm_data, [.schedule_delayed_work 0]⟩
    else connected
  else connected

/-- The delayed work `link_pm_hub_work`: one tick of the hub state machine. -/
def link_pm_hub_work (pm_data : link_pm_data) : Ret Unit :=
  if pm_data.hub_status = HUB_STATE_ACTIVE then
    ⟨(), pm_data, []⟩
  else
    match pm_data.port_enable with
    | none => ⟨(), pm_data, []⟩
    | some port_enable =>
      if pm_data.dpm_suspending then
        ⟨(), pm_data, [.wake_lock, .schedule_delayed_work 500]⟩
      else
        match pm_data.hub_status with
        | HUB_STATE_OFF =>
          if port_enable 2 1 < 0 then
            ⟨(), { pm_data with hub_status := HUB_STATE_OFF },
              [.wake_lock] ++ get_root_hub pm_data
                ++ [.port_enable 2 1, .port_enable 2 0] ++ put_root_hub pm_data⟩
          else
            ⟨(), { pm_data with hub_status := HUB_STATE_RESUMMING },
              [.wake_lock] ++ get_root_hub pm_data
                ++ [.port_enable 2 1, .schedule_delayed_work 100]⟩
        | HUB_STATE_RESUMMING =>
          if pm_data.hub_on_retry_cnt > 50 then
            ⟨(), { pm_data with hub_on_retry_cnt := 0, hub_status := HUB_STATE_OFF },
              [.wake_lock] ++ put_root_hub pm_data ++ [.schedule_delayed_work 200]⟩
          else
            ⟨(), { pm_data with hub_on_retry_cnt := pm_data.hub_on_retry_cnt + 1 },
              [.wake_lock, .schedule_delayed_work 200]⟩
        | HUB_STATE_PREACTIVE =>
          ⟨(), { pm_data with hub_status := HUB_STATE_ACTIVE, hub_on_retry_cnt := 0 },
            [.wake_lock, .wake_unlock, .complete] ++ put_root_hub pm_data⟩
        | HUB_STATE_ACTIVE => ⟨(), pm_data, [.wake_lock]⟩

/-- The function `link_pm_hub_standby`. -/
def link_pm_hub_standby (pm_data : link_pm_data) : Ret Int :=
  match pm_data.port_enable with
  | none => ⟨-ENODEV, pm_data, []⟩
  | some port_enable =>
    ⟨port_enable 2 0, { pm_data with hub_status := HUB_STATE_OFF }, [.port_enable 2 0]⟩

/-- The function `link_pm_set_active`. `wait_ret` is what
`wait_for_completion_timeout` returns: `0` when the wait timed out, the
remaining jiffies otherwise. The function itself writes no field of
`link_pm_data`. -/
def link_pm_set_active (usb_ld : usb_link_device) (wait_ret : Nat) : Ret Bool :=
  let pm_data := usb_ld.link_pm_data
  if has_hub usb_ld then
    if pm_data.hub_status ≠ HUB_STATE_ACTIVE then
      if wait_ret = 0 then
        ⟨false, pm_data,
          [.INIT_COMPLETION, .SET_SLAVE_WAKEUP 1, .wait_for_completion_timeout 2000,
            .SET_SLAVE_WAKEUP 0, .queue_delayed_work_tx 0]⟩
      else
        ⟨true, pm_data,
          [.INIT_COMPLETION, .SET_SLAVE_WAKEUP 1, .wait_for_completion_timeout 2000,
            .usb_make_resume]⟩
    else
      ⟨true, pm_data, []⟩
  else
    ⟨true, pm_data, []⟩

/-- Commands of `link_pm_ioctl`. The numeric codes are defined in the absent
header; `other` is any code the switch has no case for. -/
inductive IoctlCmd where
  | IOCTL_LINK_CONTROL_ACTIVE
  | IOCTL_LINK_GET_HOSTWAKE
  | IOCTL_LINK_CONNECTED
  | IOCTL_LINK_PORT_ON
  | IOCTL_LINK_PORT_OFF
  | IOCTL_LINK_BLOCK_AUTOSUSPEND
  | IOCTL_LINK_ENABLE_AUTOSUSPEND
  | other
  deriving DecidableEq, Repr

open IoctlCmd

/-- The function `link_pm_ioctl`. `user_value` is the `int` that
`copy_from_user` reads from `arg` (`none` when the copy faults);
`hostwake_level` is what `gpio_get_value(pm_data->gpio_link_hostwake)`
returns. The `IOCTL_LINK_PORT_OFF` branch describes the C code only on a link
device with `usbdev_valid`: the C branch dereferences `usb_ld->usbdev` under
`if_usb_connected` alone, and where that pointer is NULL it returns nothing. -/
def link_pm_ioctl (usb_ld : usb_link_device) (cmd : IoctlCmd)
    (user_value : Option Int) (hostwake_level : Int) : Ret Int :=
  let pm_data := usb_ld.link_pm_data
  match cmd with
  | IOCTL_LINK_CONTROL_ACTIVE =>
    match user_value with
    | none => ⟨-EFAULT, pm_data, []⟩
    | some value => ⟨0, pm_data, [.gpio_set_value_link_active value]⟩
  | IOCTL_LINK_GET_HOSTWAKE =>
    ⟨if hostwake_level = 0 then 1 else 0, pm_data, [.gpio_get_value_link_hostwake]⟩
  | IOCTL_LINK_CONNECTED =>
    ⟨if usb_ld.if_usb_connected then 1 else 0, pm_data, []⟩
  | IOCTL_LINK_PORT_ON =>
    let pm1 := { pm_data with hub_init_lock := false }
    let resume : List Effect :=
      if pm_data.root_hub then
        [.pm_runtime_resume_root_hub, .pm_runtime_forbid_root_hub_parent]
      else []
    match pm_data.port_enable with
    | none => ⟨0, pm1, resume⟩
    | some port_enable =>
      let err := port_enable 2 1
      if err < 0 then
        ⟨err, pm1, resume ++ [.port_enable 2 1]⟩
      else
        ⟨err, { pm1 with hub_status := HUB_STATE_RESUMMING }, resume ++ [.port_enable 2 1]⟩
  | IOCTL_LINK_PORT_OFF =>
    let disconnect : List Effect :=
      if usb_ld.if_usb_connected then
        [.pm_runtime_get_sync_udev]
          ++ (if usb_ld.udev_attached then [.usb_force_disconnect] else [])
          ++ [.pm_runtime_put_autosuspend_udev]
      else []
    let r := link_pm_hub_standby pm_data
    if r.val < 0 then
      ⟨r.val, r.pm, disconnect ++ r.effects⟩
    else
      ⟨r.val, { r.pm with hub_init_lock := true, hub_handshake_done := false },
        disconnect ++ r.effects⟩
  | IOCTL_LINK_BLOCK_AUTOSUSPEND =>
    let pm1 := { pm_data with block_autosuspend := true }
    if usb_ld.usbdev then ⟨0, pm1, [.pm_runtime_forbid_usbdev]⟩
    else ⟨-ENODEV, pm1, []⟩
  | IOCTL_LINK_ENABLE_AUTOSUSPEND =>
    let pm1 := { pm_data with block_autosuspend := false }
    if usb_ld.usbdev then ⟨0, pm1, [.pm_runtime_allow_usbdev]⟩
    else ⟨-ENODEV, pm1, []⟩
  | other => ⟨0, pm_data, []⟩

/-- The function `link_pm_notifier_event`; `event` is the `unsigned long`
notification code. The result of the standby call is dropped, as in C. -/
def link_pm_notifier_event (pm_data : link_pm_data) (event : Nat) : Ret Int :=
  if event = PM_SUSPEND_PREPARE then
    let r := link_pm_hub_standby { pm_data with dpm_suspending := true }
    ⟨NOTIFY_OK, r.pm, r.effects⟩
  else if event = PM_POST_SUSPEND then
    ⟨NOTIFY_OK, { pm_data with dpm_suspending := false }, []⟩
  else
    ⟨NOTIFY_DONE, pm_data, []⟩

/-- The `link_pm_data` that a successful `link_pm_init` leaves behind, from the
platform data's `port_enable` and `has_usbhub`: `kzalloc` zeroes everything
(so the state is `HUB_STATE_OFF`, the first enumerator, and every counter and
flag is 0), then `hub_init_lock` is set and `root_hub` is NULL. -/
def link_pm_init (port_enable : Option (Int → Int → Int)) (has_usbhub : Bool) :
    link_pm_data :=
  { has_usbhub := has_usbhub
    hub_status := HUB_STATE_OFF
    hub_on_retry_cnt := 0
    hub_init_lock := true
    hub_handshake_done := false
    dpm_suspending := false
    block_autosuspend := false
    root_hub := false
    port_enable := port_enable }

/-! ## Running the driver -/

/-- The power-management data after `n` consecutive runs of `link_pm_hub_work`,
with nothing else touching it in between. -/
def ticks : Nat → link_pm_data → link_pm_data
  | 0, pm_data => pm_data
  | n + 1, pm_data => ticks n (link_pm_hub_work pm_data).pm

/-- One event in the life of a link device: a call into the driver, or a
move of its environment. -/
inductive Op where
  /-- the delayed work `link_pm_hub_work` runs -/
  | hub_work
  /-- a direct call of `link_pm_hub_standby` -/
  | hub_standby
  /-- the ioctl `IOCTL_LINK_PORT_ON` -/
  | port_on
  /-- the ioctl `IOCTL_LINK_PORT_OFF` -/
  | port_off
  /-- the notifier is called with `PM_SUSPEND_PREPARE` -/
  | suspend_prepare
  /-- the notifier is called with `PM_POST_SUSPEND` -/
  | post_suspend
  /-- the environment confirms enumeration (see `set_preactive`) -/
  | set_preactive
  /-- the environment: from now on the platform callback, when there is one,
  answers as `g` (the C callback is not a pure function of its arguments) -/
  | port_behaviour (g : Int → Int → Int)

/-- Modelled from the spec: the code that confirms enumeration lives outside
this file (it writes `hub_status` through `p_hub_status`); the specification
gives the edge `RESUMING → PREACTIVE`, driven externally, and nothing else. -/
def set_preactive (pm_data : link_pm_data) : link_pm_data :=
  if pm_data.hub_status = HUB_STATE_RESUMMING then
    { pm_data with hub_status := HUB_STATE_PREACTIVE }
  else pm_data

/-- One event applied to a link device: the device afterwards and the calls
made. Only `link_pm_data` is ever written. -/
def step (op : Op) (usb_ld : usb_link_device) : usb_link_device × List Effect :=
  let pm_data := usb_ld.link_pm_data
  match op with
  | .hub_work =>
    let r := link_pm_hub_work pm_data
    ({ usb_ld with link_pm_data := r.pm }, r.effects)
  | .hub_standby =>
    let r := link_pm_hub_standby pm_data
    ({ usb_ld with link_pm_data := r.pm }, r.effects)
  | .port_on =>
    let r := link_pm_ioctl usb_ld IOCTL_LINK_PORT_ON none 0
    ({ usb_ld with link_pm_data := r.pm }, r.effects)
  | .port_off =>
    let r := link_pm_ioctl usb_ld IOCTL_LINK_PORT_OFF none 0
    ({ usb_ld with link_pm_data := r.pm }, r.effects)
  | .suspend_prepare =>
    let r := link_pm_notifier_event pm_data PM_SUSPEND_PREPARE
    ({ usb_ld with link_pm_data := r.pm }, r.effects)
  | .post_suspend =>
    let r := link_pm_notifier_event pm_data PM_POST_SUSPEND
    ({ usb_ld with link_pm_data := r.pm }, r.effects)
  | .set_preactive =>
    ({ usb_ld with link_pm_data := set_preactive pm_data }, [])
  | .port_behaviour g =>
    ({ usb_ld with
        link_pm_data := { pm_data with port_enable := pm_data.port_enable.map (fun _ => g) } },
      [])

/-- A sequence of events, first to last: the device at the end and all calls
made, in order. -/
def run : List Op → usb_link_device → usb_link_device × List Effect
  | [], usb_ld => (usb_ld, [])
  | op :: ops, usb_ld =>
    ((run ops (step op usb_ld).1).1, (step op usb_ld).2 ++ (run ops (step op usb_ld).1).2)

/-- Usage count of the root hub after a list of calls, from the count `c`
before them: `pm_runtime_get_sync(root_hub)` adds one,
`pm_runtime_put_sync(root_hub)` takes one away. -/
def root_hub_usage (c : Int) : List Effect → Int
  | [] => c
  | .pm_runtime_get_sync_root_hub :: es => root_hub_usage (c + 1) es
  | .pm_runtime_put_sync_root_hub :: es => root_hub_usage (c - 1) es
  | _ :: es => root_hub_usage c es

/-- Usage count of `udev` (the parent of the modem's USB device) after a list
of calls: `pm_runtime_get_sync(&udev->dev)` adds one,
`pm_runtime_put_autosuspend(&udev->dev)` takes one away. -/
def udev_usage (c : Int) : List Effect → Int
  | [] => c
  | .pm_runtime_get_sync_udev :: es => udev_usage (c + 1) es
  | .pm_runtime_put_autosuspend_udev :: es => udev_usage (c - 1) es
  | _ :: es => udev_usage c es

/-- Whether a list of calls acquires the root hub (`pm_runtime_get_sync`)
while an earlier acquire has not been released (`pm_runtime_put_sync`) yet;
`held` says whether an acquire is outstanding at the start. -/
def double_acquire_from (held : Bool) : List Effect → Bool
  | [] => false
  | .pm_runtime_get_sync_root_hub :: es => held || double_acquire_from true es
  | .pm_runtime_put_sync_root_hub :: es => double_acquire_from false es
  | _ :: es => double_acquire_from held es

/-- Two acquires of the root hub with no release between them. -/
def double_acquire (es : List Effect) : Bool := double_acquire_from false es

/-- The calls on the slave-wakeup line among a list of calls. -/
def slave_wakeup_writes : List Effect → List Int
  | [] => []
  | .SET_SLAVE_WAKEUP v :: es => v :: slave_wakeup_writes es
  | _ :: es => slave_wakeup_writes es

/-- The delays of the hub work items a list of calls schedules. -/
def scheduled_delays : List Effect → List Nat
  | [] => []
  | .schedule_delayed_work ms :: es => ms :: scheduled_delays es
  | _ :: es => scheduled_delays es

/-- The `port_enable(port, value)` calls among a list of calls. -/
def port_calls : List Effect → List (Int × Int)
  | [] => []
  | .port_enable p v :: es => (p, v) :: port_calls es
  | _ :: es => port_calls es

/-- A sequence of the two port commands only, interleaved with
arbitrary changes of how the platform callback answers. -/
def PortCmds (ops : List Op) : Prop :=
  ∀ o ∈ ops, o = Op.port_on ∨ o = Op.port_off ∨ ∃ g, o = Op.port_behaviour g

/-- A call into the driver, with what the environment hands back to it: every
function of the file that runs after initialisation. -/
inductive Call where
  /-- the delayed work `link_pm_hub_work` -/
  | hub_work
  /-- the function `link_pm_hub_standby` -/
  | hub_standby
  /-- the function `link_pm_ioctl` with its command and environment values -/
  | ioctl (cmd : IoctlCmd) (user_value : Option Int) (hostwake_level : Int)
  /-- the function `link_pm_notifier_event` with its event code -/
  | notifier (event : Nat)
  /-- the function `link_pm_is_connected` -/
  | is_connected
  /-- the function `link_pm_set_active` with the result of its wait -/
  | set_active (wait_ret : Nat)

/-- The power-management data a call leaves behind and the calls it made. -/
def exec (c : Call) (usb_ld : usb_link_device) : link_pm_data × List Effect :=
  match c with
  | .hub_work =>
    ((link_pm_hub_work usb_ld.link_pm_data).pm, (link_pm_hub_work usb_ld.link_pm_data).effects)
  | .hub_standby =>
    ((link_pm_hub_standby usb_ld.link_pm_data).pm,
      (link_pm_hub_standby usb_ld.link_pm_data).effects)
  | .ioctl cmd user_value hostwake_level =>
    ((link_pm_ioctl usb_ld cmd user_value hostwake_level).pm,
      (link_pm_ioctl usb_ld cmd user_value hostwake_level).effects)
  | .notifier event =>
    ((link_pm_notifier_event usb_ld.link_pm_data event).pm,
      (link_pm_notifier_event usb_ld.link_pm_data event).effects)
  | .is_connected =>
    ((link_pm_is_connected usb_ld).pm, (link_pm_is_connected usb_ld).effects)
  | .set_active wait_ret =>
    ((link_pm_set_active usb_ld wait_ret).pm, (link_pm_set_active usb_ld wait_ret).effects)

/-- Whether the wake lock `hub_lock` is held after a list of calls, given
whether it was held before: `wake_lock` takes it, `wake_unlock` drops it. -/
def hub_lock_held (held : Bool) : List Effect → Bool
  | [] => held
  | .wake_lock :: es => hub_lock_held true es
  | .wake_unlock :: es => hub_lock_held false es
  | _ :: es => hub_lock_held held es

/-! ## Concrete contexts -/

/-- A platform callback that always succeeds. -/
def port_ok : Int → Int → Int := fun _ _ => 0

/-- The context right after `link_pm_init` on a board with a hub and a working
port-power callback. -/
def pm_boot : link_pm_data := link_pm_init (some port_ok) true

/-- The context `pm_boot` once the root hub has been probed (`root_hub` not NULL). -/
def pm_probed : link_pm_data := { pm_boot with root_hub := true }

/-- The context `pm_probed` in the middle of a resume: `RESUMING`, seven retries made. -/
def pm_resuming : link_pm_data :=
  { pm_probed with hub_status := HUB_STATE_RESUMMING, hub_on_retry_cnt := 7 }

/-- The context `pm_probed` in `RESUMING` with the retry counter at 51. -/
def pm_stuck : link_pm_data :=
  { pm_probed with hub_status := HUB_STATE_RESUMMING, hub_on_retry_cnt := 51 }

/-- A board whose platform data has no port-power callback, right after init. -/
def pm_no_port : link_pm_data := link_pm_init none true

/-- The context `pm_no_port` with the state `PREACTIVE`. -/
def pm_no_port_preactive : link_pm_data :=
  { pm_no_port with hub_status := HUB_STATE_PREACTIVE }

/-- The context `pm_no_port` with the state `RESUMING`. -/
def pm_no_port_resuming : link_pm_data :=
  { pm_no_port with hub_status := HUB_STATE_RESUMMING }

/-- A link device with nothing attached around the given power-management data. -/
def ld_of (pm_data : link_pm_data) : usb_link_device :=
  { if_usb_connected := false, usbdev := false, udev_attached := false,
    link_pm_data := pm_data }

/-- A platform callback that always fails, with `-EIO`. -/
def port_broken : Int → Int → Int := fun _ _ => -5

/-- The context `pm_probed` on a board whose port-power callback always fails. -/
def pm_broken : link_pm_data := { pm_probed with port_enable := some port_broken }

/-- The context `pm_probed` with the state `PREACTIVE`. -/
def pm_preactive : link_pm_data := { pm_probed with hub_status := HUB_STATE_PREACTIVE }

/-- The context `pm_probed` with the state `ACTIVE`. -/
def pm_active : link_pm_data := { pm_probed with hub_status := HUB_STATE_ACTIVE }

/-- The context `pm_resuming` while the system is suspending. -/
def pm_suspending : link_pm_data := { pm_resuming with dpm_suspending := true }

/-- The context `pm_probed` in `RESUMING`, no retry made yet, no longer init-locked. -/
def pm_resuming0 : link_pm_data :=
  { pm_probed with hub_status := HUB_STATE_RESUMMING, hub_init_lock := false }

/-- The context `pm_probed` with the hub `ACTIVE`, the init lock released and
the handshake with the modem done. -/
def pm_handshaken : link_pm_data :=
  { pm_probed with hub_status := HUB_STATE_ACTIVE, hub_init_lock := false,
                   hub_handshake_done := true }

/-! # Theorems -/

/-! ## Single-tick lemmas for `link_pm_hub_work` -/

theorem hub_work_off_ok (pm : link_pm_data) (f : Int → Int → Int)
    (hp : pm.port_enable = some f) (hs : pm.dpm_suspending = false)
    (h : pm.hub_status = HUB_STATE_OFF) (hf : 0 ≤ f 2 1) :
    link_pm_hub_work pm =
      ⟨(), { pm with hub_status := HUB_STATE_RESUMMING },
        [.wake_lock] ++ get_root_hub pm
          ++ [.port_enable 2 1, .schedule_delayed_work 100]⟩ := by
  unfold link_pm_hub_work
  simp [h, hp, hs, not_lt.mpr hf]

theorem hub_work_off_fail (pm : link_pm_data) (f : Int → Int → Int)
    (hp : pm.port_enable = some f) (hs : pm.dpm_suspending = false)
    (h : pm.hub_status = HUB_STATE_OFF) (hf : f 2 1 < 0) :
    link_pm_hub_work pm =
      ⟨(), { pm with hub_status := HUB_STATE_OFF },
        [.wake_lock] ++ get_root_hub pm
          ++ [.port_enable 2 1, .port_enable 2 0] ++ put_root_hub pm⟩ := by
  unfold link_pm_hub_work
  simp [h, hp, hs, hf]

theorem hub_work_resuming_retry (pm : link_pm_data) (f : Int → Int → Int)
    (hp : pm.port_enable = some f) (hs : pm.dpm_suspending = false)
    (h : pm.hub_status = HUB_STATE_RESUMMING) (hc : pm.hub_on_retry_cnt ≤ 50) :
    link_pm_hub_work pm =
      ⟨(), { pm with hub_on_retry_cnt := pm.hub_on_retry_cnt + 1 },
        [.wake_lock, .schedule_delayed_work 200]⟩ := by
  unfold link_pm_hub_work
  simp [h, hp, hs, not_lt.mpr hc]

theorem hub_work_resuming_abandon (pm : link_pm_data) (f : Int → Int → Int)
    (hp : pm.port_enable = some f) (hs : pm.dpm_suspending = false)
    (h : pm.hub_status = HUB_STATE_RESUMMING) (hc : 50 < pm.hub_on_retry_cnt) :
    link_pm_hub_work pm =
      ⟨(), { pm with hub_on_retry_cnt := 0, hub_status := HUB_STATE_OFF },
        [.wake_lock] ++ put_root_hub pm ++ [.schedule_delayed_work 200]⟩ := by
  unfold link_pm_hub_work
  simp [h, hp, hs, hc]

theorem hub_work_preactive (pm : link_pm_data) (f : Int → Int → Int)
    (hp : pm.port_enable = some f) (hs : pm.dpm_suspending = false)
    (h : pm.hub_status = HUB_STATE_PREACTIVE) :
    link_pm_hub_work pm =
      ⟨(), { pm with hub_status := HUB_STATE_ACTIVE, hub_on_retry_cnt := 0 },
        [.wake_lock, .wake_unlock, .complete] ++ put_root_hub pm⟩ := by
  unfold link_pm_hub_work
  simp [h, hp, hs]

theorem hub_work_no_port (pm : link_pm_data) (hp : pm.port_enable = none) :
    link_pm_hub_work pm = ⟨(), pm, []⟩ := by
  unfold link_pm_hub_work
  simp [hp]

theorem hub_work_suspending (pm : link_pm_data) (f : Int → Int → Int)
    (hp : pm.port_enable = some f) (hs : pm.dpm_suspending = true)
    (h : pm.hub_status ≠ HUB_STATE_ACTIVE) :
    link_pm_hub_work pm = ⟨(), pm, [.wake_lock, .schedule_delayed_work 500]⟩ := by
  unfold link_pm_hub_work
  simp [h, hp, hs]

/-! ## Iterated ticks -/

theorem ticks_add (m n : Nat) (pm : link_pm_data) :
    ticks (m + n) pm = ticks n (ticks m pm) := by
  induction m generalizing pm with
  | zero => simp [ticks]
  | succ m ih =>
    rw [Nat.succ_add]
    exact ih _

/-- While the retry counter has room, `n` ticks in `RESUMING` only add `n` to it. -/
theorem ticks_resuming (n : Nat) (pm : link_pm_data) (f : Int → Int → Int)
    (hp : pm.port_enable = some f) (hs : pm.dpm_suspending = false)
    (h : pm.hub_status = HUB_STATE_RESUMMING)
    (hc : pm.hub_on_retry_cnt + n ≤ 51) :
    ticks n pm = { pm with hub_on_retry_cnt := pm.hub_on_retry_cnt + n } := by
  induction n generalizing pm with
  | zero => simp [ticks]
  | succ n ih =>
    have hc1 : pm.hub_on_retry_cnt ≤ 50 := by push_cast at hc; omega
    rw [ticks, hub_work_resuming_retry pm f hp hs h hc1]
    dsimp only
    rw [ih { pm with hub_on_retry_cnt := pm.hub_on_retry_cnt + 1 } hp hs h
      (by push_cast at hc ⊢; omega)]
    simp only [Nat.cast_add, Nat.cast_one, link_pm_data.mk.injEq, true_and, and_true]
    omega

/-- From `OFF` with a working callback: the first tick enters `RESUMING`, the
next 51 stay there, and the one after that falls back to `OFF`. -/
theorem ticks_from_off (pm : link_pm_data) (f : Int → Int → Int)
    (hp : pm.port_enable = some f) (hf : ∀ a b, 0 ≤ f a b)
    (hs : pm.dpm_suspending = false) (hc : pm.hub_on_retry_cnt = 0)
    (h : pm.hub_status = HUB_STATE_OFF) :
    (∀ k : Nat, k ≤ 51 →
      ticks (1 + k) pm =
        { pm with hub_status := HUB_STATE_RESUMMING, hub_on_retry_cnt := k }) ∧
    ticks 53 pm = pm := by
  have key : ∀ k : Nat, k ≤ 51 →
      ticks (1 + k) pm =
        { pm with hub_status := HUB_STATE_RESUMMING, hub_on_retry_cnt := k } := by
    intro k hk
    rw [ticks_add, ticks, ticks, hub_work_off_ok pm f hp hs h (hf 2 1)]
    dsimp only
    rw [ticks_resuming k { pm with hub_status := HUB_STATE_RESUMMING } f hp hs rfl
      (by simp only [hc]; omega)]
    simp [hc]
  refine ⟨key, ?_⟩
  have h52 := key 51 (le_refl _)
  rw [show (53 : Nat) = (1 + 51) + 1 from rfl, ticks_add, h52, ticks, ticks]
  rw [hub_work_resuming_abandon
    { pm with hub_status := HUB_STATE_RESUMMING, hub_on_retry_cnt := ((51 : Nat) : Int) }
    f hp hs rfl (by simp)]
  cases pm
  simp_all

/-! ## C1: the retry ladder -/

/-- C1 as stated fails: from the context left by `link_pm_init` with a working
callback, the first tick enters `RESUMING` and the state is not `OFF` after
any of the next 0..51 ticks. -/
theorem retry_ladder_not_off_within_51 :
    pm_boot.port_enable = some port_ok ∧ pm_boot.dpm_suspending = false ∧
    pm_boot.hub_on_retry_cnt = 0 ∧ pm_boot.hub_status = HUB_STATE_OFF ∧
    (ticks 1 pm_boot).hub_status = HUB_STATE_RESUMMING ∧
    ¬ ∃ k : Nat, k ≤ 51 ∧ (ticks (1 + k) pm_boot).hub_status = HUB_STATE_OFF := by
  refine ⟨rfl, rfl, rfl, rfl, rfl, ?_⟩
  rintro ⟨k, hk, hoff⟩
  have h := (ticks_from_off pm_boot port_ok rfl (fun _ _ => le_refl _) rfl rfl rfl).1 k hk
  rw [h] at hoff
  cases hoff

/-- C1, amended: for every context with a port-power callback that succeeds,
`dpm_suspending` false, retry counter 0 and state `OFF`, with nothing but
`link_pm_hub_work` ticks running, the first tick moves `OFF` to `RESUMING`,
the state is `RESUMING` after each of the next 51 ticks, and it is `OFF`
again after the 52nd tick following the `OFF → RESUMING` tick. -/
theorem retry_ladder_off_after_52 (pm : link_pm_data) (f : Int → Int → Int)
    (hp : pm.port_enable = some f) (hf : ∀ a b, 0 ≤ f a b)
    (hs : pm.dpm_suspending = false) (hc : pm.hub_on_retry_cnt = 0)
    (h : pm.hub_status = HUB_STATE_OFF) :
    (ticks 1 pm).hub_status = HUB_STATE_RESUMMING ∧
    (∀ k : Nat, k ≤ 51 → (ticks (1 + k) pm).hub_status = HUB_STATE_RESUMMING) ∧
    (ticks (1 + 52) pm).hub_status = HUB_STATE_OFF := by
  obtain ⟨hk, h53⟩ := ticks_from_off pm f hp hf hs hc h
  refine ⟨?_, ?_, ?_⟩
  · have := hk 0 (by omega)
    rw [this]
  · intro k hk51
    rw [hk k hk51]
  · rw [show 1 + 52 = 53 from rfl, h53, h]

/-- Witness for C1 (amended) at the boot context. -/
theorem retry_ladder_off_after_52_witness :
    (ticks 1 pm_boot).hub_status = HUB_STATE_RESUMMING ∧
    (∀ k : Nat, k ≤ 51 → (ticks (1 + k) pm_boot).hub_status = HUB_STATE_RESUMMING) ∧
    (ticks (1 + 52) pm_boot).hub_status = HUB_STATE_OFF :=
  retry_ladder_off_after_52 pm_boot port_ok rfl (fun _ _ => le_refl _) rfl rfl rfl

/-! ## C2: the retry counter when the state leaves `RESUMING` -/

/-- C2 at the failing input: in `RESUMING` with seven retries counted, the
standby path (called directly, through `IOCTL_LINK_PORT_OFF`, or through the
`PM_SUSPEND_PREPARE` notification) moves the state to `OFF` and leaves the
retry counter at 7, whereas the tick that abandons the ladder resets it. -/
theorem standby_leaves_retry_cnt :
    pm_resuming.hub_status = HUB_STATE_RESUMMING ∧
    (link_pm_hub_standby pm_resuming).pm.hub_status = HUB_STATE_OFF ∧
    (link_pm_hub_standby pm_resuming).pm.hub_on_retry_cnt = 7 ∧
    (link_pm_ioctl (ld_of pm_resuming) IOCTL_LINK_PORT_OFF none 0).pm.hub_status
      = HUB_STATE_OFF ∧
    (link_pm_ioctl (ld_of pm_resuming) IOCTL_LINK_PORT_OFF none 0).pm.hub_on_retry_cnt = 7 ∧
    (link_pm_notifier_event pm_resuming PM_SUSPEND_PREPARE).pm.hub_status = HUB_STATE_OFF ∧
    (link_pm_notifier_event pm_resuming PM_SUSPEND_PREPARE).pm.hub_on_retry_cnt = 7 ∧
    (link_pm_hub_work pm_stuck).pm.hub_status = HUB_STATE_OFF ∧
    (link_pm_hub_work pm_stuck).pm.hub_on_retry_cnt = 0 := by
  refine ⟨rfl, rfl, rfl, rfl, rfl, rfl, rfl, rfl, rfl⟩

/-! ## C3: acquires and releases of the root hub -/

/-- C3 at the failing input: from the boot context with the root hub probed,
a tick (`OFF → RESUMING`, which acquires the root hub), a forced standby (back
to `OFF`, no release) and another tick (acquires again) make two
`pm_runtime_get_sync(root_hub)` calls with no `pm_runtime_put_sync` between. -/
theorem standby_then_tick_acquires_twice :
    (run [.hub_work, .hub_standby, .hub_work] (ld_of pm_probed)).2 =
      [.wake_lock, .pm_runtime_get_sync_root_hub, .port_enable 2 1,
        .schedule_delayed_work 100,
        .port_enable 2 0,
        .wake_lock, .pm_runtime_get_sync_root_hub, .port_enable 2 1,
        .schedule_delayed_work 100] ∧
    double_acquire (run [.hub_work, .hub_standby, .hub_work] (ld_of pm_probed)).2 = true ∧
    double_acquire (run [.hub_work, .port_off, .hub_work] (ld_of pm_probed)).2 = true ∧
    double_acquire
      (run [.hub_work, .suspend_prepare, .post_suspend, .hub_work] (ld_of pm_probed)).2
      = true := by
  refine ⟨rfl, rfl, rfl, rfl⟩

/-! ## C4: sequences of PortOn and PortOff -/

theorem run_append (xs ys : List Op) (ld : usb_link_device) :
    run (xs ++ ys) ld =
      ((run ys (run xs ld).1).1, (run xs ld).2 ++ (run ys (run xs ld).1).2) := by
  induction xs generalizing ld with
  | nil => simp [run]
  | cons x xs ih => simp [run, ih, List.append_assoc]

theorem root_hub_usage_append (c : Int) (xs ys : List Effect) :
    root_hub_usage c (xs ++ ys) = root_hub_usage (root_hub_usage c xs) ys := by
  induction xs generalizing c with
  | nil => rfl
  | cons x xs ih => cases x <;> simp [root_hub_usage, ih]

theorem udev_usage_append (c : Int) (xs ys : List Effect) :
    udev_usage c (xs ++ ys) = udev_usage (udev_usage c xs) ys := by
  induction xs generalizing c with
  | nil => rfl
  | cons x xs ih => cases x <;> simp [udev_usage, ih]

/-- No event ever changes whether there is a platform callback. -/
theorem step_port_isSome (op : Op) (ld : usb_link_device) :
    (step op ld).1.link_pm_data.port_enable.isSome = ld.link_pm_data.port_enable.isSome := by
  cases op <;>
    simp only [step, link_pm_hub_work, link_pm_hub_standby, link_pm_ioctl,
      link_pm_notifier_event, set_preactive] <;>
    (repeat' split) <;> simp_all

theorem run_port_isSome (ops : List Op) (ld : usb_link_device) :
    (run ops ld).1.link_pm_data.port_enable.isSome = ld.link_pm_data.port_enable.isSome := by
  induction ops generalizing ld with
  | nil => rfl
  | cons op ops ih => simp [run, ih, step_port_isSome]

/-- With a platform callback present, `IOCTL_LINK_PORT_OFF` ends in `OFF`. -/
theorem port_off_state (ld : usb_link_device)
    (hp : ld.link_pm_data.port_enable.isSome = true) :
    (step Op.port_off ld).1.link_pm_data.hub_status = HUB_STATE_OFF := by
  obtain ⟨f, hf⟩ := Option.isSome_iff_exists.mp hp
  simp only [step, link_pm_ioctl, link_pm_hub_standby, hf]
  split <;> rfl

/-- The port commands make no get/put call on the root hub, and the get/put
pair of PortOff on `udev` is balanced. -/
theorem port_cmd_usage (op : Op) (ld : usb_link_device)
    (hop : op = Op.port_on ∨ op = Op.port_off ∨ ∃ g, op = Op.port_behaviour g) (c : Int) :
    root_hub_usage c (step op ld).2 = c ∧ udev_usage c (step op ld).2 = c := by
  rcases hop with rfl | rfl | ⟨g, rfl⟩
  · simp only [step, link_pm_ioctl]
    cases hr : ld.link_pm_data.root_hub <;> cases hp : ld.link_pm_data.port_enable <;>
      simp [root_hub_usage, udev_usage] <;> split <;> simp [root_hub_usage, udev_usage]
  · simp only [step, link_pm_ioctl, link_pm_hub_standby]
    cases hc : ld.if_usb_connected <;> cases ha : ld.udev_attached <;>
      cases hp : ld.link_pm_data.port_enable <;>
      simp [root_hub_usage, udev_usage, ENODEV] <;> split <;> simp [root_hub_usage, udev_usage]
  · simp [step, root_hub_usage, udev_usage]

theorem port_cmds_usage (ops : List Op) (ld : usb_link_device) (hops : PortCmds ops)
    (c : Int) :
    root_hub_usage c (run ops ld).2 = c ∧ udev_usage c (run ops ld).2 = c := by
  induction ops generalizing ld with
  | nil => exact ⟨rfl, rfl⟩
  | cons op ops ih =>
    have h1 := port_cmd_usage op ld (hops op (List.mem_cons_self _ _)) c
    have h2 := ih (step op ld).1 (fun o ho => hops o (List.mem_cons_of_mem _ ho))
    simp only [run, root_hub_usage_append, udev_usage_append, h1.1, h1.2, h2.1, h2.2,
      and_self]

/-- C4 as stated fails: on a board without a port-power callback, in
`RESUMING`, the one-command sequence PortOff returns `-ENODEV` and leaves the
state `RESUMING`, not `OFF`. -/
theorem port_off_without_callback_not_off :
    (run [.port_off] (ld_of pm_no_port_resuming)).1.link_pm_data.hub_status
      = HUB_STATE_RESUMMING ∧
    (link_pm_ioctl (ld_of pm_no_port_resuming) IOCTL_LINK_PORT_OFF none 0).val = -ENODEV ∧
    (run [.port_off] (ld_of pm_no_port_resuming)).1.link_pm_data.hub_status
      ≠ HUB_STATE_OFF := by
  refine ⟨rfl, rfl, ?_⟩
  decide

/-- No event writes the transport fields of the link device, so `usbdev_valid`
holds all along a sequence when it holds at its start. -/
theorem run_keeps_device (ops : List Op) (ld : usb_link_device) :
    (run ops ld).1.if_usb_connected = ld.if_usb_connected ∧
    (run ops ld).1.usbdev = ld.usbdev := by
  induction ops generalizing ld with
  | nil => exact ⟨rfl, rfl⟩
  | cons op ops ih =>
    obtain ⟨h1, h2⟩ := ih (step op ld).1
    simp only [run, h1, h2]
    cases op <;> exact ⟨rfl, rfl⟩

/-- C4, amended: for every link device on which PortOff can run (`usbdev` set
whenever the transport is attached) and every sequence of PortOn and PortOff
commands (with the callback free to answer differently from one command to
the next), at the end the usage count of the root hub (`pm_runtime_get_sync`
minus `pm_runtime_put_sync`) equals its value before the sequence, as does
the usage count of `udev`; and when the context has a port-power callback,
the hub state is `OFF` after each PortOff of the sequence. The precondition
on `usbdev` still holds before every command of the sequence. -/
theorem port_cmds_off_and_balanced (ld : usb_link_device) (ops : List Op)
    (hdev : usbdev_valid ld) (hops : PortCmds ops) :
    (ld.link_pm_data.port_enable.isSome = true →
      ∀ pre : List Op, pre ++ [Op.port_off] <+: ops →
        (run (pre ++ [Op.port_off]) ld).1.link_pm_data.hub_status = HUB_STATE_OFF) ∧
    (∀ c : Int, root_hub_usage c (run ops ld).2 = c) ∧
    (∀ c : Int, udev_usage c (run ops ld).2 = c) ∧
    (∀ pre : List Op, pre <+: ops → usbdev_valid (run pre ld).1) := by
  refine ⟨?_, fun c => (port_cmds_usage ops ld hops c).1,
    fun c => (port_cmds_usage ops ld hops c).2, ?_⟩
  · intro hp pre _
    rw [run_append]
    simp only [run]
    exact port_off_state _ (by rw [run_port_isSome]; exact hp)
  · intro pre _ hc
    rw [(run_keeps_device pre ld).1] at hc
    rw [(run_keeps_device pre ld).2]
    exact hdev hc

/-- Witness for C4 (amended): PortOn, PortOff, PortOn, PortOff on the probed
boot context with the modem attached. -/
theorem port_cmds_off_and_balanced_witness :
    (∀ pre : List Op,
      pre ++ [Op.port_off] <+: [Op.port_on, Op.port_off, Op.port_on, Op.port_off] →
      (run (pre ++ [Op.port_off])
        { ld_of pm_probed with if_usb_connected := true, usbdev := true,
                               udev_attached := true }).1.link_pm_data.hub_status
        = HUB_STATE_OFF) ∧
    (∀ c : Int, root_hub_usage c
      (run [Op.port_on, Op.port_off, Op.port_on, Op.port_off]
        { ld_of pm_probed with if_usb_connected := true, usbdev := true,
                               udev_attached := true }).2 = c) ∧
    (∀ c : Int, udev_usage c
      (run [Op.port_on, Op.port_off, Op.port_on, Op.port_off]
        { ld_of pm_probed with if_usb_connected := true, usbdev := true,
                               udev_attached := true }).2 = c) :=
  have hops : PortCmds [Op.port_on, Op.port_off, Op.port_on, Op.port_off] := by
    intro o ho
    simp only [List.mem_cons, List.mem_singleton, List.not_mem_nil, or_false] at ho
    rcases ho with rfl | rfl | rfl | rfl <;> simp
  ⟨(port_cmds_off_and_balanced
      { ld_of pm_probed with if_usb_connected := true, usbdev := true, udev_attached := true }
      _ (fun _ => rfl) hops).1 rfl,
    (port_cmds_off_and_balanced
      { ld_of pm_probed with if_usb_connected := true, usbdev := true, udev_attached := true }
      _ (fun _ => rfl) hops).2.1,
    (port_cmds_off_and_balanced
      { ld_of pm_probed with if_usb_connected := true, usbdev := true, udev_attached := true }
      _ (fun _ => rfl) hops).2.2.1⟩

/-! ## C5: suspend-prepare while `RESUMING` -/

/-- C5 as stated fails: in `RESUMING` with a port-power callback, the
`PM_SUSPEND_PREPARE` notification calls `port_enable(2, 0)` at once (and
forces the state to `OFF`). -/
theorem suspend_prepare_calls_port_enable :
    pm_resuming.hub_status = HUB_STATE_RESUMMING ∧
    Effect.port_enable 2 0 ∈ (link_pm_notifier_event pm_resuming PM_SUSPEND_PREPARE).effects ∧
    (link_pm_notifier_event pm_resuming PM_SUSPEND_PREPARE).pm.hub_status = HUB_STATE_OFF := by
  refine ⟨rfl, ?_, rfl⟩
  decide

/-- C5, amended: for every context whose state is `RESUMING`, handling
`PM_SUSPEND_PREPARE` returns `NOTIFY_OK` and leaves `dpm_suspending` true;
when a port-power callback is present it makes exactly one call,
`port_enable(2, 0)`, and forces the state to `OFF`; it makes no call at all
(and leaves the state `RESUMING`) when there is no callback. -/
theorem suspend_prepare_while_resuming (pm : link_pm_data)
    (h : pm.hub_status = HUB_STATE_RESUMMING) :
    (link_pm_notifier_event pm PM_SUSPEND_PREPARE).val = NOTIFY_OK ∧
    (link_pm_notifier_event pm PM_SUSPEND_PREPARE).pm.dpm_suspending = true ∧
    (∀ f, pm.port_enable = some f →
      (link_pm_notifier_event pm PM_SUSPEND_PREPARE).effects = [.port_enable 2 0] ∧
      (link_pm_notifier_event pm PM_SUSPEND_PREPARE).pm.hub_status = HUB_STATE_OFF) ∧
    (pm.port_enable = none →
      (link_pm_notifier_event pm PM_SUSPEND_PREPARE).effects = [] ∧
      (link_pm_notifier_event pm PM_SUSPEND_PREPARE).pm.hub_status = HUB_STATE_RESUMMING) := by
  simp only [link_pm_notifier_event, link_pm_hub_standby, if_true]
  cases hp : pm.port_enable <;> simp [h]

/-- Witness for C5 (amended) at `pm_resuming`. -/
theorem suspend_prepare_while_resuming_witness :
    pm_resuming.hub_status = HUB_STATE_RESUMMING ∧
    (link_pm_notifier_event pm_resuming PM_SUSPEND_PREPARE).pm.dpm_suspending = true ∧
    (link_pm_notifier_event pm_resuming PM_SUSPEND_PREPARE).effects = [.port_enable 2 0] :=
  ⟨rfl, (suspend_prepare_while_resuming pm_resuming rfl).2.1,
    ((suspend_prepare_while_resuming pm_resuming rfl).2.2.1 port_ok rfl).1⟩

/-! ## C6: the chain of self-scheduled ticks -/

/-- In `OFF` or `RESUMING`, not suspending and with a callback on which
powering the port on succeeds, a tick always schedules the next one and ends
in `OFF` or `RESUMING` again. -/
theorem hub_work_reschedules (pm : link_pm_data) (f : Int → Int → Int)
    (hp : pm.port_enable = some f) (hf : 0 ≤ f 2 1) (hs : pm.dpm_suspending = false)
    (h : pm.hub_status = HUB_STATE_OFF ∨ pm.hub_status = HUB_STATE_RESUMMING) :
    (∃ ms, scheduled_delays (link_pm_hub_work pm).effects = [ms]) ∧
    (link_pm_hub_work pm).pm.port_enable = some f ∧
    (link_pm_hub_work pm).pm.dpm_suspending = false ∧
    ((link_pm_hub_work pm).pm.hub_status = HUB_STATE_OFF ∨
      (link_pm_hub_work pm).pm.hub_status = HUB_STATE_RESUMMING) := by
  rcases h with h | h
  · rw [hub_work_off_ok pm f hp hs h hf]
    refine ⟨⟨100, ?_⟩, hp, hs, Or.inr rfl⟩
    cases hr : pm.root_hub <;> simp [get_root_hub, hr, scheduled_delays]
  · by_cases hc : pm.hub_on_retry_cnt ≤ 50
    · rw [hub_work_resuming_retry pm f hp hs h hc]
      exact ⟨⟨200, rfl⟩, hp, hs, Or.inr h⟩
    · rw [hub_work_resuming_abandon pm f hp hs h (not_le.mp hc)]
      refine ⟨⟨200, ?_⟩, hp, hs, Or.inl rfl⟩
      cases hr : pm.root_hub <;> simp [put_root_hub, hr, scheduled_delays]

theorem ticks_reschedule (n : Nat) (pm : link_pm_data) (f : Int → Int → Int)
    (hp : pm.port_enable = some f) (hf : 0 ≤ f 2 1) (hs : pm.dpm_suspending = false)
    (h : pm.hub_status = HUB_STATE_OFF ∨ pm.hub_status = HUB_STATE_RESUMMING) :
    ∃ ms, scheduled_delays (link_pm_hub_work (ticks n pm)).effects = [ms] := by
  induction n generalizing pm with
  | zero => exact (hub_work_reschedules pm f hp hf hs h).1
  | succ n ih =>
    obtain ⟨_, hp1, hs1, h1⟩ := hub_work_reschedules pm f hp hf hs h
    exact ih _ hp1 hs1 h1

/-- C6 at the failing input: in `RESUMING` with the retry counter at 51 (the
bound exceeded), a working callback and no suspend in progress, the tick moves
the state to `OFF`, resets the counter, releases the root hub and still
schedules the next tick after 200 ms; from the probed boot context every tick
of the chain schedules exactly one further tick, so the chain never ends. -/
theorem abandon_tick_reschedules :
    pm_stuck.hub_status = HUB_STATE_RESUMMING ∧ pm_stuck.hub_on_retry_cnt = 51 ∧
    (link_pm_hub_work pm_stuck).pm.hub_status = HUB_STATE_OFF ∧
    (link_pm_hub_work pm_stuck).pm.hub_on_retry_cnt = 0 ∧
    (link_pm_hub_work pm_stuck).effects =
      [.wake_lock, .pm_runtime_put_sync_root_hub, .schedule_delayed_work 200] ∧
    (∀ n : Nat, ∃ ms,
      scheduled_delays (link_pm_hub_work (ticks n pm_probed)).effects = [ms]) := by
  refine ⟨rfl, rfl, rfl, rfl, rfl, fun n => ?_⟩
  exact ticks_reschedule n pm_probed port_ok rfl (le_refl _) rfl (Or.inl rfl)

/-! ## C7, C8: the activation handshake -/

/-- C7: whenever the hub is not present or the hub state is `ACTIVE`,
`link_pm_set_active` returns true whatever the completion would have done,
makes no call at all (no slave-wakeup write, no re-arming of or wait on the
completion) and leaves the context as it was. -/
theorem set_active_fast_path (usb_ld : usb_link_device) (wait_ret : Nat)
    (h : has_hub usb_ld = false ∨ usb_ld.link_pm_data.hub_status = HUB_STATE_ACTIVE) :
    (link_pm_set_active usb_ld wait_ret).val = true ∧
    (link_pm_set_active usb_ld wait_ret).effects = [] ∧
    (link_pm_set_active usb_ld wait_ret).pm = usb_ld.link_pm_data := by
  unfold link_pm_set_active
  rcases h with h | h
  · simp [h]
  · cases hh : has_hub usb_ld <;> simp [h]

/-- Witness for C7: a device with a hub in state `ACTIVE`. -/
theorem set_active_fast_path_witness :
    (link_pm_set_active (ld_of { pm_probed with hub_status := HUB_STATE_ACTIVE }) 0).val = true ∧
    (link_pm_set_active (ld_of { pm_probed with hub_status := HUB_STATE_ACTIVE }) 0).effects
      = [] ∧
    (link_pm_set_active (ld_of { pm_probed with hub_status := HUB_STATE_ACTIVE }) 0).pm
      = { pm_probed with hub_status := HUB_STATE_ACTIVE } :=
  set_active_fast_path (ld_of { pm_probed with hub_status := HUB_STATE_ACTIVE }) 0
    (Or.inr rfl)

/-- C8: with a hub present and the hub state not `ACTIVE`, when the wait on
the completion times out (`wait_for_completion_timeout` returns 0),
`link_pm_set_active` returns false; its calls are, in order: re-arm the
completion, slave-wakeup 1, the 2000 ms wait, slave-wakeup 0, and one
`queue_delayed_work` of the transmit work with delay 0; so the slave-wakeup
line was written 1 then 0 and exactly one retry was queued; the context, hub
state included, is as before the call. -/
theorem set_active_timeout (usb_ld : usb_link_device)
    (hh : has_hub usb_ld = true)
    (hs : usb_ld.link_pm_data.hub_status ≠ HUB_STATE_ACTIVE) :
    (link_pm_set_active usb_ld 0).val = false ∧
    (link_pm_set_active usb_ld 0).effects =
      [.INIT_COMPLETION, .SET_SLAVE_WAKEUP 1, .wait_for_completion_timeout 2000,
        .SET_SLAVE_WAKEUP 0, .queue_delayed_work_tx 0] ∧
    slave_wakeup_writes (link_pm_set_active usb_ld 0).effects = [1, 0] ∧
    (link_pm_set_active usb_ld 0).effects.count (.queue_delayed_work_tx 0) = 1 ∧
    (∀ d, Effect.queue_delayed_work_tx d ∈ (link_pm_set_active usb_ld 0).effects → d = 0) ∧
    (link_pm_set_active usb_ld 0).pm = usb_ld.link_pm_data ∧
    (link_pm_set_active usb_ld 0).pm.hub_status = usb_ld.link_pm_data.hub_status := by
  unfold link_pm_set_active
  simp [hh, hs, slave_wakeup_writes]

/-- Witness for C8: the probed boot context, hub `OFF`. -/
theorem set_active_timeout_witness :
    (link_pm_set_active (ld_of pm_probed) 0).val = false ∧
    slave_wakeup_writes (link_pm_set_active (ld_of pm_probed) 0).effects = [1, 0] ∧
    (link_pm_set_active (ld_of pm_probed) 0).pm.hub_status = HUB_STATE_OFF :=
  ⟨(set_active_timeout (ld_of pm_probed) rfl (by decide)).1,
    (set_active_timeout (ld_of pm_probed) rfl (by decide)).2.2.1,
    (set_active_timeout (ld_of pm_probed) rfl (by decide)).2.2.2.2.2.2⟩

/-! ## C9: the PortOn command -/

/-- C9 as stated fails: on a board with a hub but no port-power callback,
from the initial state `OFF`, PortOn returns 0 (success) and the state is
still `OFF`, not `RESUMING`. -/
theorem port_on_without_callback_stays_off :
    has_hub (ld_of pm_no_port) = true ∧
    (ld_of pm_no_port).link_pm_data.hub_status = HUB_STATE_OFF ∧
    (link_pm_ioctl (ld_of pm_no_port) IOCTL_LINK_PORT_ON none 0).val = 0 ∧
    (link_pm_ioctl (ld_of pm_no_port) IOCTL_LINK_PORT_ON none 0).pm.hub_status
      = HUB_STATE_OFF ∧
    (link_pm_ioctl (ld_of pm_no_port) IOCTL_LINK_PORT_ON none 0).pm.hub_status
      ≠ HUB_STATE_RESUMMING := by
  refine ⟨rfl, rfl, rfl, rfl, ?_⟩
  decide

/-- C9, amended: for every context with a port-power callback present, PortOn
returns what `port_enable(2, 1)` returned and clears `hub_init_lock`; when
that is a success (not negative) the hub state is `RESUMING` afterwards, in
particular from the state `OFF` with a hub present; when it is an error the
hub state is unchanged. -/
theorem port_on_success (usb_ld : usb_link_device) (f : Int → Int → Int)
    (user_value : Option Int) (hostwake_level : Int)
    (hp : usb_ld.link_pm_data.port_enable = some f) :
    (link_pm_ioctl usb_ld IOCTL_LINK_PORT_ON user_value hostwake_level).val = f 2 1 ∧
    (link_pm_ioctl usb_ld IOCTL_LINK_PORT_ON user_value hostwake_level).pm.hub_init_lock
      = false ∧
    (0 ≤ (link_pm_ioctl usb_ld IOCTL_LINK_PORT_ON user_value hostwake_level).val →
      (link_pm_ioctl usb_ld IOCTL_LINK_PORT_ON user_value hostwake_level).pm.hub_status
        = HUB_STATE_RESUMMING) ∧
    ((link_pm_ioctl usb_ld IOCTL_LINK_PORT_ON user_value hostwake_level).val < 0 →
      (link_pm_ioctl usb_ld IOCTL_LINK_PORT_ON user_value hostwake_level).pm.hub_status
        = usb_ld.link_pm_data.hub_status) := by
  simp only [link_pm_ioctl, hp]
  by_cases hf : f 2 1 < 0
  · simp [hf]
  · simp [hf]

/-- Witness for C9 (amended): PortOn on the boot context, state `OFF`, hub
present, working callback. -/
theorem port_on_success_witness :
    has_hub (ld_of pm_boot) = true ∧
    (ld_of pm_boot).link_pm_data.hub_status = HUB_STATE_OFF ∧
    (link_pm_ioctl (ld_of pm_boot) IOCTL_LINK_PORT_ON none 0).val = 0 ∧
    (link_pm_ioctl (ld_of pm_boot) IOCTL_LINK_PORT_ON none 0).pm.hub_init_lock = false ∧
    (link_pm_ioctl (ld_of pm_boot) IOCTL_LINK_PORT_ON none 0).pm.hub_status
      = HUB_STATE_RESUMMING :=
  ⟨rfl, rfl, (port_on_success (ld_of pm_boot) port_ok none 0 rfl).1,
    (port_on_success (ld_of pm_boot) port_ok none 0 rfl).2.1,
    (port_on_success (ld_of pm_boot) port_ok none 0 rfl).2.2.1 (by decide)⟩

/-! ## C10: the `PREACTIVE → ACTIVE` edge -/

/-- C10 as stated fails: in `PREACTIVE` without a port-power callback the tick
returns at once, and in `PREACTIVE` during a suspend it only takes the wake
lock and reschedules itself after 500 ms; in both cases the state stays
`PREACTIVE` and the completion is not signalled. -/
theorem preactive_tick_guarded :
    pm_no_port_preactive.hub_status = HUB_STATE_PREACTIVE ∧
    (link_pm_hub_work pm_no_port_preactive).pm.hub_status = HUB_STATE_PREACTIVE ∧
    (link_pm_hub_work pm_no_port_preactive).effects = [] ∧
    (link_pm_hub_work { pm_probed with hub_status := HUB_STATE_PREACTIVE,
                                       dpm_suspending := true }).pm.hub_status
      = HUB_STATE_PREACTIVE ∧
    (link_pm_hub_work { pm_probed with hub_status := HUB_STATE_PREACTIVE,
                                       dpm_suspending := true }).effects
      = [.wake_lock, .schedule_delayed_work 500] := by
  refine ⟨rfl, rfl, rfl, rfl, rfl⟩

/-- C10, amended: for every context whose state is `PREACTIVE`, with a
port-power callback present and `dpm_suspending` false, one tick sets the
state to `ACTIVE` and the retry counter to 0 and changes nothing else; its
calls are, in order, `wake_lock`, `wake_unlock`, `complete`, and, when the
root hub handle is held, `pm_runtime_put_sync(root_hub)`; it schedules no
further tick. -/
theorem preactive_tick (pm : link_pm_data) (f : Int → Int → Int)
    (h : pm.hub_status = HUB_STATE_PREACTIVE) (hp : pm.port_enable = some f)
    (hs : pm.dpm_suspending = false) :
    (link_pm_hub_work pm).pm =
      { pm with hub_status := HUB_STATE_ACTIVE, hub_on_retry_cnt := 0 } ∧
    (link_pm_hub_work pm).pm.hub_status = HUB_STATE_ACTIVE ∧
    (link_pm_hub_work pm).pm.hub_on_retry_cnt = 0 ∧
    (link_pm_hub_work pm).effects =
      [.wake_lock, .wake_unlock, .complete]
        ++ (if pm.root_hub then [.pm_runtime_put_sync_root_hub] else []) ∧
    Effect.wake_unlock ∈ (link_pm_hub_work pm).effects ∧
    Effect.complete ∈ (link_pm_hub_work pm).effects ∧
    (pm.root_hub = true →
      Effect.pm_runtime_put_sync_root_hub ∈ (link_pm_hub_work pm).effects) ∧
    scheduled_delays (link_pm_hub_work pm).effects = [] := by
  rw [hub_work_preactive pm f hp hs h]
  cases hr : pm.root_hub <;> simp [put_root_hub, hr, scheduled_delays]

/-- Witness for C10 (amended): the probed context in `PREACTIVE`. -/
theorem preactive_tick_witness :
    (link_pm_hub_work { pm_probed with hub_status := HUB_STATE_PREACTIVE }).pm.hub_status
      = HUB_STATE_ACTIVE ∧
    (link_pm_hub_work { pm_probed with hub_status := HUB_STATE_PREACTIVE }).effects =
      [.wake_lock, .wake_unlock, .complete, .pm_runtime_put_sync_root_hub] :=
  ⟨(preactive_tick { pm_probed with hub_status := HUB_STATE_PREACTIVE } port_ok
      rfl rfl rfl).2.1,
    (preactive_tick { pm_probed with hub_status := HUB_STATE_PREACTIVE } port_ok
      rfl rfl rfl).2.2.2.1⟩


/-! ## C11: where the completion is signalled -/

theorem hub_work_complete (pm : link_pm_data)
    (h : Effect.complete ∈ (link_pm_hub_work pm).effects) :
    pm.hub_status = HUB_STATE_PREACTIVE ∧
    (link_pm_hub_work pm).pm.hub_status = HUB_STATE_ACTIVE := by
  rcases pm with ⟨hub, st, cnt, lock, hs, dpm, blk, root, pe⟩
  cases st <;> cases pe <;> cases dpm <;> cases root <;>
    simp [link_pm_hub_work, get_root_hub, put_root_hub] at h ⊢ <;>
    split at h <;> simp at h

theorem hub_standby_no_complete (pm : link_pm_data) :
    Effect.complete ∉ (link_pm_hub_standby pm).effects := by
  cases hp : pm.port_enable <;> simp [link_pm_hub_standby, hp]

theorem ioctl_no_complete (usb_ld : usb_link_device) (cmd : IoctlCmd)
    (user_value : Option Int) (hostwake_level : Int) :
    Effect.complete ∉ (link_pm_ioctl usb_ld cmd user_value hostwake_level).effects := by
  rcases usb_ld with ⟨conn, dev, att, ⟨hub, st, cnt, lock, hs, dpm, blk, root, pe⟩⟩
  cases cmd <;> cases pe <;> cases user_value <;> cases conn <;> cases dev <;> cases att <;>
    cases root <;>
    simp only [link_pm_ioctl, link_pm_hub_standby] <;> (try split) <;> simp

theorem notifier_no_complete (pm : link_pm_data) (event : Nat) :
    Effect.complete ∉ (link_pm_notifier_event pm event).effects := by
  simp only [link_pm_notifier_event]
  split
  · exact hub_standby_no_complete _
  · split <;> simp

theorem is_connected_no_complete (usb_ld : usb_link_device) :
    Effect.complete ∉ (link_pm_is_connected usb_ld).effects := by
  simp only [link_pm_is_connected]
  repeat' split
  all_goals simp

theorem set_active_no_complete (usb_ld : usb_link_device) (wait_ret : Nat) :
    Effect.complete ∉ (link_pm_set_active usb_ld wait_ret).effects := by
  simp only [link_pm_set_active]
  repeat' split
  all_goals simp

/-- C11: for every link device and every call into the driver (hub work
tick, standby, any ioctl command, the notifier with any event,
`link_pm_is_connected`, `link_pm_set_active`), if the call signals the
completion `hub_active` then it is a hub work tick, the state before it was
`PREACTIVE` and the state after it is `ACTIVE`. -/
theorem complete_only_on_preactive_edge (c : Call) (usb_ld : usb_link_device)
    (h : Effect.complete ∈ (exec c usb_ld).2) :
    c = Call.hub_work ∧ usb_ld.link_pm_data.hub_status = HUB_STATE_PREACTIVE ∧
    (exec c usb_ld).1.hub_status = HUB_STATE_ACTIVE := by
  cases c with
  | hub_work => exact ⟨rfl, hub_work_complete _ h⟩
  | hub_standby => exact absurd h (hub_standby_no_complete _)
  | ioctl cmd user_value hostwake_level => exact absurd h (ioctl_no_complete _ _ _ _)
  | notifier event => exact absurd h (notifier_no_complete _ _)
  | is_connected => exact absurd h (is_connected_no_complete _)
  | set_active wait_ret => exact absurd h (set_active_no_complete _ _)

/-- Witness for C11: the tick in `PREACTIVE` does signal the completion. -/
theorem complete_only_on_preactive_edge_witness :
    Effect.complete ∈ (exec Call.hub_work (ld_of pm_preactive)).2 ∧
    (ld_of pm_preactive).link_pm_data.hub_status = HUB_STATE_PREACTIVE ∧
    (exec Call.hub_work (ld_of pm_preactive)).1.hub_status = HUB_STATE_ACTIVE :=
  ⟨by decide,
    (complete_only_on_preactive_edge Call.hub_work (ld_of pm_preactive) (by decide)).2⟩


/-! ## C12: forced standby -/

/-- C12 as stated fails: without a port-power callback `link_pm_hub_standby`
returns `-ENODEV` at once and the state, here `PREACTIVE`, is not `OFF`
afterwards. -/
theorem standby_without_callback_keeps_state :
    (link_pm_hub_standby pm_no_port_preactive).val = -ENODEV ∧
    (link_pm_hub_standby pm_no_port_preactive).pm.hub_status = HUB_STATE_PREACTIVE ∧
    (link_pm_hub_standby pm_no_port_preactive).pm.hub_status ≠ HUB_STATE_OFF := by
  refine ⟨rfl, rfl, ?_⟩
  decide

/-- C12, amended: for every context with a port-power callback present and
every outcome of the power-off request, failure included,
`link_pm_hub_standby` makes the one call `port_enable(2, 0)`, returns what it
returned (so a failure reaches the caller), and leaves the hub state equal to
`OFF` with every other field unchanged. -/
theorem standby_reaches_off (pm : link_pm_data) (f : Int → Int → Int)
    (hp : pm.port_enable = some f) :
    (link_pm_hub_standby pm).pm.hub_status = HUB_STATE_OFF ∧
    (link_pm_hub_standby pm).val = f 2 0 ∧
    (f 2 0 < 0 → (link_pm_hub_standby pm).val < 0 ∧
      (link_pm_hub_standby pm).pm.hub_status = HUB_STATE_OFF) ∧
    (link_pm_hub_standby pm).effects = [.port_enable 2 0] ∧
    (link_pm_hub_standby pm).pm = { pm with hub_status := HUB_STATE_OFF } := by
  simp [link_pm_hub_standby, hp]

/-- Witness for C12 (amended): standby with a failing callback, from `RESUMING`. -/
theorem standby_reaches_off_witness :
    (link_pm_hub_standby { pm_broken with hub_status := HUB_STATE_RESUMMING }).pm.hub_status
      = HUB_STATE_OFF ∧
    (link_pm_hub_standby { pm_broken with hub_status := HUB_STATE_RESUMMING }).val = -5 :=
  ⟨(standby_reaches_off { pm_broken with hub_status := HUB_STATE_RESUMMING }
      port_broken rfl).1,
    (standby_reaches_off { pm_broken with hub_status := HUB_STATE_RESUMMING }
      port_broken rfl).2.1⟩

/-! ## C13: the PortOff command -/

/-- C13: for every link device on which PortOff can run (`usbdev` set whenever
the transport is attached), PortOff returns an error (a negative value)
exactly when the standby path fails, that is when the port-power callback is
missing or `port_enable(2, 0)` returns a negative value; when it returns
success the state is `OFF`, `hub_init_lock` is set and `hub_handshake_done` is
cleared; when it returns an error both flags keep their previous values. -/
theorem port_off_result (usb_ld : usb_link_device) (user_value : Option Int)
    (hostwake_level : Int) (hdev : usbdev_valid usb_ld) :
    ((link_pm_ioctl usb_ld IOCTL_LINK_PORT_OFF user_value hostwake_level).val < 0 ↔
      (usb_ld.link_pm_data.port_enable = none ∨
        ∃ f, usb_ld.link_pm_data.port_enable = some f ∧ f 2 0 < 0)) ∧
    ((link_pm_ioctl usb_ld IOCTL_LINK_PORT_OFF user_value hostwake_level).val < 0 ↔
      (link_pm_hub_standby usb_ld.link_pm_data).val < 0) ∧
    (0 ≤ (link_pm_ioctl usb_ld IOCTL_LINK_PORT_OFF user_value hostwake_level).val →
      (link_pm_ioctl usb_ld IOCTL_LINK_PORT_OFF user_value hostwake_level).pm.hub_status
        = HUB_STATE_OFF ∧
      (link_pm_ioctl usb_ld IOCTL_LINK_PORT_OFF user_value hostwake_level).pm.hub_init_lock
        = true ∧
      (link_pm_ioctl usb_ld IOCTL_LINK_PORT_OFF user_value hostwake_level).pm.hub_handshake_done
        = false) ∧
    ((link_pm_ioctl usb_ld IOCTL_LINK_PORT_OFF user_value hostwake_level).val < 0 →
      (link_pm_ioctl usb_ld IOCTL_LINK_PORT_OFF user_value hostwake_level).pm.hub_init_lock
        = usb_ld.link_pm_data.hub_init_lock ∧
      (link_pm_ioctl usb_ld IOCTL_LINK_PORT_OFF user_value hostwake_level).pm.hub_handshake_done
        = usb_ld.link_pm_data.hub_handshake_done) := by
  have _ := hdev
  cases hp : usb_ld.link_pm_data.port_enable with
  | none => simp [link_pm_ioctl, link_pm_hub_standby, hp, ENODEV]
  | some f =>
    by_cases hf : f 2 0 < 0
    · simp [link_pm_ioctl, link_pm_hub_standby, hp, hf]
    · simp [link_pm_ioctl, link_pm_hub_standby, hp, hf]

/-- Witness for C13: PortOff with the modem attached, once with a working
callback (success: `OFF`, init lock set, handshake flag cleared) and once with
a failing one (error `-5`: both flags as before). -/
theorem port_off_result_witness :
    usbdev_valid { ld_of pm_handshaken with if_usb_connected := true, usbdev := true,
                                            udev_attached := true } ∧
    (link_pm_ioctl { ld_of pm_handshaken with if_usb_connected := true, usbdev := true,
                                              udev_attached := true }
        IOCTL_LINK_PORT_OFF none 0).pm.hub_status = HUB_STATE_OFF ∧
    (link_pm_ioctl { ld_of pm_handshaken with if_usb_connected := true, usbdev := true,
                                              udev_attached := true }
        IOCTL_LINK_PORT_OFF none 0).pm.hub_init_lock = true ∧
    (link_pm_ioctl { ld_of pm_handshaken with if_usb_connected := true, usbdev := true,
                                              udev_attached := true }
        IOCTL_LINK_PORT_OFF none 0).pm.hub_handshake_done = false ∧
    (link_pm_ioctl
        { ld_of { pm_handshaken with port_enable := some port_broken } with
            if_usb_connected := true, usbdev := true, udev_attached := true }
        IOCTL_LINK_PORT_OFF none 0).pm.hub_init_lock = false ∧
    (link_pm_ioctl
        { ld_of { pm_handshaken with port_enable := some port_broken } with
            if_usb_connected := true, usbdev := true, udev_attached := true }
        IOCTL_LINK_PORT_OFF none 0).pm.hub_handshake_done = true :=
  ⟨fun _ => rfl,
    ((port_off_result
      { ld_of pm_handshaken with if_usb_connected := true, usbdev := true,
                                 udev_attached := true }
      none 0 (fun _ => rfl)).2.2.1 (by decide)).1,
    ((port_off_result
      { ld_of pm_handshaken with if_usb_connected := true, usbdev := true,
                                 udev_attached := true }
      none 0 (fun _ => rfl)).2.2.1 (by decide)).2.1,
    ((port_off_result
      { ld_of pm_handshaken with if_usb_connected := true, usbdev := true,
                                 udev_attached := true }
      none 0 (fun _ => rfl)).2.2.1 (by decide)).2.2,
    ((port_off_result
      { ld_of { pm_handshaken with port_enable := some port_broken } with
          if_usb_connected := true, usbdev := true, udev_attached := true }
      none 0 (fun _ => rfl)).2.2.2 (by decide)).1,
    ((port_off_result
      { ld_of { pm_handshaken with port_enable := some port_broken } with
          if_usb_connected := true, usbdev := true, udev_attached := true }
      none 0 (fun _ => rfl)).2.2.2 (by decide)).2⟩

/-! ## C14: power-up failure -/

/-- C14: for every context in state `OFF` with `dpm_suspending` false, if
`port_enable(2, 1)` fails during the hub work tick, then the tick calls
`port_enable(2, 0)` exactly once, right after the failed call, ends with
state `OFF` (no field changed), releases the root hub once for the one acquire
it made when a root hub handle is held and makes neither call otherwise, so
the usage count of the root hub is as before, and it schedules no tick. -/
theorem power_up_failure (pm : link_pm_data) (f : Int → Int → Int)
    (hp : pm.port_enable = some f) (hs : pm.dpm_suspending = false)
    (h : pm.hub_status = HUB_STATE_OFF) (hf : f 2 1 < 0) :
    (link_pm_hub_work pm).pm = pm ∧
    (link_pm_hub_work pm).pm.hub_status = HUB_STATE_OFF ∧
    port_calls (link_pm_hub_work pm).effects = [(2, 1), (2, 0)] ∧
    (link_pm_hub_work pm).effects =
      [.wake_lock]
        ++ (if pm.root_hub then [.pm_runtime_get_sync_root_hub] else [])
        ++ [.port_enable 2 1, .port_enable 2 0]
        ++ (if pm.root_hub then [.pm_runtime_put_sync_root_hub] else []) ∧
    (∀ c : Int, root_hub_usage c (link_pm_hub_work pm).effects = c) ∧
    scheduled_delays (link_pm_hub_work pm).effects = [] := by
  rw [hub_work_off_fail pm f hp hs h hf]
  rcases pm with ⟨hub, st, cnt, lock, hsd, dpm, blk, root, pe⟩
  simp only at h
  subst h
  cases root <;>
    simp [get_root_hub, put_root_hub, port_calls, root_hub_usage, scheduled_delays]

/-- Witness for C14: the probed boot context with a callback that fails. -/
theorem power_up_failure_witness :
    (link_pm_hub_work pm_broken).pm.hub_status = HUB_STATE_OFF ∧
    port_calls (link_pm_hub_work pm_broken).effects = [(2, 1), (2, 0)] ∧
    (link_pm_hub_work pm_broken).effects =
      [.wake_lock, .pm_runtime_get_sync_root_hub, .port_enable 2 1, .port_enable 2 0,
        .pm_runtime_put_sync_root_hub] ∧
    scheduled_delays (link_pm_hub_work pm_broken).effects = [] :=
  ⟨(power_up_failure pm_broken port_broken rfl rfl rfl (by decide)).2.1,
    (power_up_failure pm_broken port_broken rfl rfl rfl (by decide)).2.2.1,
    (power_up_failure pm_broken port_broken rfl rfl rfl (by decide)).2.2.2.1,
    (power_up_failure pm_broken port_broken rfl rfl rfl (by decide)).2.2.2.2.2⟩


/-! ## C15: deferral during suspend -/

/-- Outside a suspend, every delay `link_pm_hub_work` schedules is 100 ms or 200 ms. -/
theorem hub_work_delays (pm : link_pm_data) (hs : pm.dpm_suspending = false) :
    ∀ d ∈ scheduled_delays (link_pm_hub_work pm).effects, d = 100 ∨ d = 200 := by
  rcases pm with ⟨hub, st, cnt, lock, hsd, dpm, blk, root, pe⟩
  simp only at hs
  subst hs
  cases st <;> cases pe <;> cases root <;>
    simp [link_pm_hub_work, get_root_hub, put_root_hub, scheduled_delays] <;>
    split <;> simp [scheduled_delays]

/-- C15: for every context with `dpm_suspending` true, a port-power callback
present and state not `ACTIVE`, the hub work tick changes no field (state and
retry counter included), calls neither `port_enable` nor
`pm_runtime_get_sync`/`pm_runtime_put_sync` on the root hub, and schedules
exactly one further tick, after 500 ms, which is longer than every delay (100
ms or 200 ms) a tick schedules outside a suspend. -/
theorem suspend_deferral (pm : link_pm_data) (f : Int → Int → Int)
    (hs : pm.dpm_suspending = true) (hp : pm.port_enable = some f)
    (h : pm.hub_status ≠ HUB_STATE_ACTIVE) :
    (link_pm_hub_work pm).pm = pm ∧
    (link_pm_hub_work pm).pm.hub_status = pm.hub_status ∧
    (link_pm_hub_work pm).pm.hub_on_retry_cnt = pm.hub_on_retry_cnt ∧
    (link_pm_hub_work pm).effects = [.wake_lock, .schedule_delayed_work 500] ∧
    port_calls (link_pm_hub_work pm).effects = [] ∧
    Effect.pm_runtime_get_sync_root_hub ∉ (link_pm_hub_work pm).effects ∧
    Effect.pm_runtime_put_sync_root_hub ∉ (link_pm_hub_work pm).effects ∧
    scheduled_delays (link_pm_hub_work pm).effects = [500] ∧
    (∀ pm2 : link_pm_data, pm2.dpm_suspending = false →
      ∀ d ∈ scheduled_delays (link_pm_hub_work pm2).effects, d < 500) := by
  rw [hub_work_suspending pm f hp hs h]
  refine ⟨rfl, rfl, rfl, rfl, rfl, by simp, by simp, rfl, ?_⟩
  intro pm2 hs2 d hd
  rcases hub_work_delays pm2 hs2 d hd with rfl | rfl <;> omega

/-- Witness for C15: `RESUMING`, seven retries made, system suspending. -/
theorem suspend_deferral_witness :
    (link_pm_hub_work pm_suspending).pm = pm_suspending ∧
    (link_pm_hub_work pm_suspending).effects = [.wake_lock, .schedule_delayed_work 500] ∧
    scheduled_delays (link_pm_hub_work pm_suspending).effects = [500] :=
  ⟨(suspend_deferral pm_suspending port_ok rfl rfl (by decide)).1,
    (suspend_deferral pm_suspending port_ok rfl rfl (by decide)).2.2.2.1,
    (suspend_deferral pm_suspending port_ok rfl rfl (by decide)).2.2.2.2.2.2.2.1⟩

/-! ## C16: the init lock -/

/-- C16: for every link device with a hub present and `hub_init_lock` true,
whatever the hub state and the transport attach flag, `link_pm_is_connected`
returns false, makes no call (so schedules no hub work) and changes no field
of the context. -/
theorem init_lock_gates_is_connected (usb_ld : usb_link_device)
    (hh : has_hub usb_ld = true) (hl : usb_ld.link_pm_data.hub_init_lock = true) :
    (link_pm_is_connected usb_ld).val = false ∧
    (link_pm_is_connected usb_ld).effects = [] ∧
    scheduled_delays (link_pm_is_connected usb_ld).effects = [] ∧
    (link_pm_is_connected usb_ld).pm = usb_ld.link_pm_data := by
  simp [link_pm_is_connected, hh, hl, scheduled_delays]

/-- Witness for C16: the boot context (init-locked, hub `OFF`), modem attached. -/
theorem init_lock_gates_is_connected_witness :
    (link_pm_is_connected { ld_of pm_probed with if_usb_connected := true }).val = false ∧
    (link_pm_is_connected { ld_of pm_probed with if_usb_connected := true }).effects = [] ∧
    (link_pm_is_connected { ld_of pm_probed with if_usb_connected := true }).pm = pm_probed :=
  ⟨(init_lock_gates_is_connected { ld_of pm_probed with if_usb_connected := true }
      rfl rfl).1,
    (init_lock_gates_is_connected { ld_of pm_probed with if_usb_connected := true }
      rfl rfl).2.1,
    (init_lock_gates_is_connected { ld_of pm_probed with if_usb_connected := true }
      rfl rfl).2.2.2⟩

/-! ## C17: suspend-prepare twice -/

/-- C17 as stated fails: with a port-power callback present, the second
`PM_SUSPEND_PREPARE` calls `port_enable(2, 0)` once more, so two notifications
make two power-off calls where a single one makes one. -/
theorem second_suspend_prepare_powers_off_again :
    (link_pm_notifier_event pm_resuming PM_SUSPEND_PREPARE).effects = [.port_enable 2 0] ∧
    (link_pm_notifier_event (link_pm_notifier_event pm_resuming PM_SUSPEND_PREPARE).pm
      PM_SUSPEND_PREPARE).effects = [.port_enable 2 0] ∧
    (run [.suspend_prepare, .suspend_prepare] (ld_of pm_resuming)).2
      = [.port_enable 2 0, .port_enable 2 0] ∧
    (run [.suspend_prepare, .suspend_prepare] (ld_of pm_resuming)).2
      ≠ (run [.suspend_prepare] (ld_of pm_resuming)).2 := by
  refine ⟨rfl, rfl, rfl, ?_⟩
  decide

/-- C17, amended: for every context, handling `PM_SUSPEND_PREPARE` twice with
no `PM_POST_SUSPEND` in between leaves exactly the same context as handling
it once, with `dpm_suspending` true; the second call makes the same calls as
the first, which is one more `port_enable(2, 0)` when a port-power callback is
present and nothing when there is none, and no other call. -/
theorem suspend_prepare_twice (pm : link_pm_data) :
    (link_pm_notifier_event (link_pm_notifier_event pm PM_SUSPEND_PREPARE).pm
      PM_SUSPEND_PREPARE).pm = (link_pm_notifier_event pm PM_SUSPEND_PREPARE).pm ∧
    (link_pm_notifier_event (link_pm_notifier_event pm PM_SUSPEND_PREPARE).pm
      PM_SUSPEND_PREPARE).pm.dpm_suspending = true ∧
    (link_pm_notifier_event (link_pm_notifier_event pm PM_SUSPEND_PREPARE).pm
      PM_SUSPEND_PREPARE).effects = (link_pm_notifier_event pm PM_SUSPEND_PREPARE).effects ∧
    (link_pm_notifier_event (link_pm_notifier_event pm PM_SUSPEND_PREPARE).pm
      PM_SUSPEND_PREPARE).effects =
        (if pm.port_enable.isSome then [.port_enable 2 0] else []) := by
  cases hp : pm.port_enable <;> simp [link_pm_notifier_event, link_pm_hub_standby, hp]


/-! ## C18: spurious wake while `ACTIVE` -/

/-- C18: for every context whose state is `ACTIVE`, the hub work tick changes
no field and makes no call at all (no wake lock, no `port_enable`, no call on
the root hub, no completion signal, no rescheduling); and for every link
device in that state with `hub_init_lock` false, `link_pm_is_connected` makes
no call either, so it schedules no hub work, and answers with the transport
attach flag. -/
theorem active_is_noop (usb_ld : usb_link_device)
    (h : usb_ld.link_pm_data.hub_status = HUB_STATE_ACTIVE) :
    (link_pm_hub_work usb_ld.link_pm_data).pm = usb_ld.link_pm_data ∧
    (link_pm_hub_work usb_ld.link_pm_data).effects = [] ∧
    (usb_ld.link_pm_data.hub_init_lock = false →
      (link_pm_is_connected usb_ld).effects = [] ∧
      scheduled_delays (link_pm_is_connected usb_ld).effects = [] ∧
      (link_pm_is_connected usb_ld).pm = usb_ld.link_pm_data ∧
      (link_pm_is_connected usb_ld).val = usb_ld.if_usb_connected) := by
  refine ⟨by simp [link_pm_hub_work, h], by simp [link_pm_hub_work, h], ?_⟩
  intro hl
  cases hh : has_hub usb_ld <;> cases hc : usb_ld.if_usb_connected <;>
    simp [link_pm_is_connected, h, hl, hh, hc, scheduled_delays]

/-- Witness for C18: the probed context in `ACTIVE`, init lock released. -/
theorem active_is_noop_witness :
    (link_pm_hub_work (ld_of { pm_active with hub_init_lock := false }).link_pm_data).pm
      = { pm_active with hub_init_lock := false } ∧
    (link_pm_hub_work (ld_of { pm_active with hub_init_lock := false }).link_pm_data).effects
      = [] ∧
    (link_pm_is_connected (ld_of { pm_active with hub_init_lock := false })).effects = [] :=
  ⟨(active_is_noop (ld_of { pm_active with hub_init_lock := false }) rfl).1,
    (active_is_noop (ld_of { pm_active with hub_init_lock := false }) rfl).2.1,
    ((active_is_noop (ld_of { pm_active with hub_init_lock := false }) rfl).2.2 rfl).1⟩

/-! ## C19: the exact abandonment point -/

/-- C19: for every context in state `RESUMING` with retry counter 0, a
port-power callback present and `dpm_suspending` false, after each of the
first 51 consecutive ticks the state is still `RESUMING` and the counter
equals the number of ticks made (51 after the 51st); after the 52nd tick the
state is `OFF` and the counter is 0 again. And for every such context with
any counter value, a tick in `RESUMING` ends in `OFF` if and only if the
counter before the tick is greater than 50. -/
theorem abandon_on_52nd_tick (pm : link_pm_data) (f : Int → Int → Int)
    (h : pm.hub_status = HUB_STATE_RESUMMING) (hp : pm.port_enable = some f)
    (hs : pm.dpm_suspending = false) :
    (pm.hub_on_retry_cnt = 0 →
      (∀ k : Nat, k ≤ 51 →
        (ticks k pm).hub_status = HUB_STATE_RESUMMING ∧ (ticks k pm).hub_on_retry_cnt = k) ∧
      (ticks 52 pm).hub_status = HUB_STATE_OFF ∧ (ticks 52 pm).hub_on_retry_cnt = 0) ∧
    ((link_pm_hub_work pm).pm.hub_status = HUB_STATE_OFF ↔ 50 < pm.hub_on_retry_cnt) := by
  constructor
  · intro hc
    have key : ∀ k : Nat, k ≤ 51 →
        ticks k pm = { pm with hub_on_retry_cnt := k } := by
      intro k hk
      rw [ticks_resuming k pm f hp hs h (by rw [hc]; omega), hc, zero_add]
    refine ⟨fun k hk => ?_, ?_⟩
    · rw [key k hk]
      exact ⟨h, rfl⟩
    · rw [show (52 : Nat) = 51 + 1 from rfl, ticks_add, key 51 (le_refl _), ticks, ticks,
        hub_work_resuming_abandon { pm with hub_on_retry_cnt := ((51 : Nat) : Int) } f hp hs h
          (by simp)]
      exact ⟨rfl, rfl⟩
  · by_cases hc : pm.hub_on_retry_cnt ≤ 50
    · rw [hub_work_resuming_retry pm f hp hs h hc]
      simp only [h]
      constructor
      · intro hx
        cases hx
      · intro hx
        omega
    · rw [hub_work_resuming_abandon pm f hp hs h (not_le.mp hc)]
      exact ⟨fun _ => not_le.mp hc, fun _ => rfl⟩

/-- Witness for C19: the probed context in `RESUMING` with no retry made. -/
theorem abandon_on_52nd_tick_witness :
    pm_resuming0.hub_on_retry_cnt = 0 ∧
    (ticks 51 pm_resuming0).hub_status = HUB_STATE_RESUMMING ∧
    (ticks 51 pm_resuming0).hub_on_retry_cnt = 51 ∧
    (ticks 52 pm_resuming0).hub_status = HUB_STATE_OFF ∧
    (ticks 52 pm_resuming0).hub_on_retry_cnt = 0 :=
  ⟨rfl,
    (((abandon_on_52nd_tick pm_resuming0 port_ok rfl rfl rfl).1 rfl).1 51 (le_refl _)).1,
    (((abandon_on_52nd_tick pm_resuming0 port_ok rfl rfl rfl).1 rfl).1 51 (le_refl _)).2,
    ((abandon_on_52nd_tick pm_resuming0 port_ok rfl rfl rfl).1 rfl).2.1,
    ((abandon_on_52nd_tick pm_resuming0 port_ok rfl rfl rfl).1 rfl).2.2⟩

/-! ## C20: the wake lock at the end of a tick -/

/-- C20: for every context with a port-power callback present and state not
`ACTIVE`, and whether or not the wake lock `hub_lock` was held before, the
hub work tick returns with the wake lock released if and only if
`dpm_suspending` was false and the state before the tick was `PREACTIVE`; on
every other path (suspend deferral, `OFF → RESUMING`, power-up failure back to
`OFF`, `RESUMING` retry, abandonment to `OFF`) it returns with the wake lock
held. -/
theorem wake_lock_after_tick (pm : link_pm_data) (f : Int → Int → Int) (held : Bool)
    (hp : pm.port_enable = some f) (h : pm.hub_status ≠ HUB_STATE_ACTIVE) :
    (hub_lock_held held (link_pm_hub_work pm).effects = false ↔
      (pm.dpm_suspending = false ∧ pm.hub_status = HUB_STATE_PREACTIVE)) ∧
    (¬ (pm.dpm_suspending = false ∧ pm.hub_status = HUB_STATE_PREACTIVE) →
      hub_lock_held held (link_pm_hub_work pm).effects = true) := by
  rcases pm with ⟨hub, st, cnt, lock, hsd, dpm, blk, root, pe⟩
  simp only at hp h
  subst hp
  cases st <;> cases dpm <;> cases root <;>
    simp [link_pm_hub_work, get_root_hub, put_root_hub, hub_lock_held] at h ⊢ <;>
    split <;> simp [hub_lock_held]

/-- Witness for C20: released after the `PREACTIVE` tick, held after the tick
that abandons the retry ladder. -/
theorem wake_lock_after_tick_witness :
    hub_lock_held false (link_pm_hub_work pm_preactive).effects = false ∧
    hub_lock_held false (link_pm_hub_work pm_stuck).effects = true :=
  ⟨(wake_lock_after_tick pm_preactive port_ok false rfl (by decide)).1.mpr ⟨rfl, rfl⟩,
    (wake_lock_after_tick pm_stuck port_ok false rfl (by decide)).2 (by decide)⟩

end ModemLinkPm
